import Mathlib

/-!
Shallow embedding of the DPL receptionist chat client.

The embedding covers the conversation state machine of the frontend:
the data model from types/index.ts, the send orchestrator handleSend
from App.tsx, the transport result shape from services/api.ts
(processMessage), and the input control from ChatInput.tsx together
with its wiring in ChatContainer.tsx. Timestamps (new Date()) are
modelled as abstract Nat instants supplied as parameters; the network
call is modelled by an explicit outcome parameter and a log of the
transport calls issued by one send invocation.
-/

namespace DPLChat

/-- Message.type from types/index.ts: user or bot. -/
inductive MsgType where
  | user
  | bot
deriving DecidableEq, Repr

/-- Message from types/index.ts: one transcript entry. -/
structure Message where
  type : MsgType
  content : String
  timestamp : Nat
deriving DecidableEq, Repr

/-- GroupMember from types/index.ts. -/
structure GroupMember where
  name : String
  cnic : String
  phone : String
deriving DecidableEq, Repr

/-- ChatState.visitorInfo from types/index.ts: the TS type is
Partial Visitor extended with three optional control fields, so every
field is optional; an absent (undefined) field is none. The field
employee_matches is an opaque unknown array in the source; its elements
are modelled as strings, which the client never inspects. -/
structure VisitorInfo where
  type : Option String
  full_name : Option String
  cnic : Option String
  phone : Option String
  host : Option String
  purpose : Option String
  entry_time : Option String
  exit_time : Option String
  is_group_visit : Option Bool
  group_id : Option String
  total_members : Option Nat
  group_members : Option (List GroupMember)
  registration_completed : Option Bool
  employee_selection_mode : Option Bool
  employee_matches : Option (List String)
deriving DecidableEq, Repr

/-- The empty VisitorInfo: every field absent, as in INITIAL_STATE. -/
def emptyVisitorInfo : VisitorInfo :=
  { type := none, full_name := none, cnic := none, phone := none,
    host := none, purpose := none, entry_time := none, exit_time := none,
    is_group_visit := none, group_id := none, total_members := none,
    group_members := none, registration_completed := none,
    employee_selection_mode := none, employee_matches := none }

/-- ChatState from types/index.ts: the aggregate the UI renders from. -/
structure ChatState where
  messages : List Message
  currentStep : String
  visitorInfo : VisitorInfo
  isLoading : Bool
deriving DecidableEq, Repr

/-- The welcome text of the initial bot message in App.tsx. -/
def welcomeText : String :=
  "Welcome to DPL! I am your AI receptionist. Please select your visitor type:"

/-- The fixed restart prompt appended on the terminal transition in App.tsx. -/
def restartText : String := "Click anywhere to start a new registration."

/-- The fixed apology text appended on a failed turn in App.tsx. -/
def apologyText : String := "Sorry, I encountered an error. Please try again."

/-- INITIAL_STATE from App.tsx: a single welcome bot message, step token
visitor_type, empty visitor info, not loading. -/
def INITIAL_STATE : ChatState :=
  { messages := [{ type := MsgType.bot, content := welcomeText, timestamp := 0 }],
    currentStep := "visitor_type",
    visitorInfo := emptyVisitorInfo,
    isLoading := false }

/-- The typed result of visitorService.processMessage from services/api.ts:
response text, an optional next_step token, and an optional partial
visitor_info object. -/
structure ProcessResult where
  response : String
  nextStep : Option String
  visitorInfo : Option VisitorInfo
deriving DecidableEq, Repr

/-- One outbound POST to the process-message endpoint, with the payload
built in services/api.ts from the arguments handleSend passes. -/
structure TransportCall where
  message : String
  current_step : String
  visitor_info : VisitorInfo
deriving DecidableEq, Repr

/-- Resolution of the awaited transport call: a deserialized result, or a
single undifferentiated failure signal covering every rejection reason. -/
inductive TurnOutcome where
  | success (r : ProcessResult)
  | failure
deriving DecidableEq, Repr

/-- JS object-spread semantics for one optional field: a key present in the
right operand overwrites, an absent key keeps the left value. -/
def spreadField {α : Type} (a b : Option α) : Option α :=
  match b with
  | some x => some x
  | none => a

/-- Field-wise spread of one VisitorInfo over another, as written in App.tsx
with two object spreads. -/
def mergeFields (v r : VisitorInfo) : VisitorInfo :=
  { type := spreadField v.type r.type,
    full_name := spreadField v.full_name r.full_name,
    cnic := spreadField v.cnic r.cnic,
    phone := spreadField v.phone r.phone,
    host := spreadField v.host r.host,
    purpose := spreadField v.purpose r.purpose,
    entry_time := spreadField v.entry_time r.entry_time,
    exit_time := spreadField v.exit_time r.exit_time,
    is_group_visit := spreadField v.is_group_visit r.is_group_visit,
    group_id := spreadField v.group_id r.group_id,
    total_members := spreadField v.total_members r.total_members,
    group_members := spreadField v.group_members r.group_members,
    registration_completed :=
      spreadField v.registration_completed r.registration_completed,
    employee_selection_mode :=
      spreadField v.employee_selection_mode r.employee_selection_mode,
    employee_matches := spreadField v.employee_matches r.employee_matches }

/-- The merge written in App.tsx as a spread of prev.visitorInfo and the
response visitor_info; in JS, spreading an absent (undefined) object is a
no-op. -/
def mergeVisitorInfo (v : VisitorInfo) (r : Option VisitorInfo) : VisitorInfo :=
  match r with
  | none => v
  | some w => mergeFields v w

/-- The guard in App.tsx testing visitorInfo and then registration_completed
on the response object: truthy only when the response carries a visitor_info
object whose registration_completed flag is true. -/
def respCompleted (r : Option VisitorInfo) : Bool :=
  match r with
  | none => false
  | some w => w.registration_completed.getD false

/-- The expression combining nextStep and prev.currentStep with JS or in
App.tsx: JS falls through to the previous step on undefined and also on the
empty string, which is falsy. -/
def jsOrStep (ns : Option String) (cur : String) : String :=
  match ns with
  | none => cur
  | some t => if t = "" then cur else t

/-- The optimistic phase of a turn in App.tsx: append the user message with
the payload as received and raise the loading flag. -/
def beginTurn (s : ChatState) (m : String) (t : Nat) : ChatState :=
  { s with
      messages := s.messages ++
        [{ type := MsgType.user, content := m, timestamp := t }],
      isLoading := true }

/-- The success handler of a turn in App.tsx. When the response carries
registration_completed, two bot messages are appended (the response text,
then the fixed restart prompt), the step becomes complete and any returned
next-step token is ignored; otherwise one bot message is appended and the
step follows the JS-or of the returned token and the previous step. Both
branches merge the response visitor_info over the accumulated one and clear
the loading flag. -/
def resolveSuccess (s : ChatState) (r : ProcessResult) (t : Nat) : ChatState :=
  if respCompleted r.visitorInfo then
    { s with
        messages := s.messages ++
          [{ type := MsgType.bot, content := r.response, timestamp := t },
           { type := MsgType.bot, content := restartText, timestamp := t }],
        currentStep := "complete",
        visitorInfo := mergeVisitorInfo s.visitorInfo r.visitorInfo,
        isLoading := false }
  else
    { s with
        messages := s.messages ++
          [{ type := MsgType.bot, content := r.response, timestamp := t }],
        currentStep := jsOrStep r.nextStep s.currentStep,
        visitorInfo := mergeVisitorInfo s.visitorInfo r.visitorInfo,
        isLoading := false }

/-- The catch handler of a turn in App.tsx: append the fixed apology bot
message and clear the loading flag, keeping every other field of the state. -/
def resolveFailure (s : ChatState) (t : Nat) : ChatState :=
  { s with
      messages := s.messages ++
        [{ type := MsgType.bot, content := apologyText, timestamp := t }],
      isLoading := false }

/-- The synchronous part of handleSend in App.tsx, up to the await point.
From the terminal step while not loading it discards the payload, resets the
whole state to INITIAL_STATE and issues no transport call; otherwise it
performs the optimistic append and issues the transport call built from the
payload and the pre-turn step and visitor info. -/
def sendSync (s : ChatState) (m : String) (t : Nat) :
    ChatState × Option TransportCall :=
  if s.currentStep = "complete" ∧ s.isLoading = false then
    (INITIAL_STATE, none)
  else
    (beginTurn s m t,
     some { message := m, current_step := s.currentStep,
            visitor_info := s.visitorInfo })

/-- One whole invocation of handleSend from App.tsx, given the outcome the
transport would deliver: the final state and the list of transport calls the
invocation issued. -/
def handleSend (s : ChatState) (m : String) (o : TurnOutcome) (t1 t2 : Nat) :
    ChatState × List TransportCall :=
  match sendSync s m t1 with
  | (s1, none) => (s1, [])
  | (s1, some c) =>
      match o with
      | TurnOutcome.success r => (resolveSuccess s1 r t2, [c])
      | TurnOutcome.failure => (resolveFailure s1 t2, [c])

/-- The JS string trim called in ChatInput.tsx: drop whitespace from both
ends of the string. -/
def jsTrim (s : String) : String :=
  { data := ((s.data.dropWhile Char.isWhitespace).reverse.dropWhile
      Char.isWhitespace).reverse }

/-- handleSubmit of ChatInput.tsx: the orchestrator is invoked with the
trimmed buffer exactly when the trimmed buffer is nonempty and the control
is not disabled; the returned value is the payload passed to onSend, none
when no invocation happens. -/
def chatInputSubmit (buffer : String) (disabled : Bool) : Option String :=
  if jsTrim buffer ≠ "" ∧ disabled = false then some (jsTrim buffer) else none

/-- The wiring of the input control in ChatContainer.tsx: the component
renders ChatInput with onSend and an isLoading prop, but ChatInput declares
only onSend and disabled, so the disabled prop is never passed and takes its
declared default false, whatever the loading flag is. -/
def chatContainerInputDisabled (_isLoading : Bool) : Bool := false

/-- The buffer update of the input element in ChatInput.tsx, which carries a
maxLength of 300: the held value is truncated to 300 characters. -/
def updateBuffer (raw : String) : String := { data := raw.data.take 300 }

/-- Enumeration of the fields of VisitorInfo, to state field-wise properties
of the merge uniformly. -/
inductive VField where
  | vtype
  | full_name
  | cnic
  | phone
  | host
  | purpose
  | entry_time
  | exit_time
  | is_group_visit
  | group_id
  | total_members
  | group_members
  | registration_completed
  | employee_selection_mode
  | employee_matches
deriving DecidableEq, Repr

/-- Common value type of the fields of VisitorInfo. -/
inductive FieldVal where
  | str (v : String)
  | flag (v : Bool)
  | num (v : Nat)
  | members (v : List GroupMember)
  | matches (v : List String)
deriving DecidableEq, Repr

/-- Uniform field access on VisitorInfo. -/
def VisitorInfo.get (v : VisitorInfo) : VField → Option FieldVal
  | VField.vtype => v.type.map FieldVal.str
  | VField.full_name => v.full_name.map FieldVal.str
  | VField.cnic => v.cnic.map FieldVal.str
  | VField.phone => v.phone.map FieldVal.str
  | VField.host => v.host.map FieldVal.str
  | VField.purpose => v.purpose.map FieldVal.str
  | VField.entry_time => v.entry_time.map FieldVal.str
  | VField.exit_time => v.exit_time.map FieldVal.str
  | VField.is_group_visit => v.is_group_visit.map FieldVal.flag
  | VField.group_id => v.group_id.map FieldVal.str
  | VField.total_members => v.total_members.map FieldVal.num
  | VField.group_members => v.group_members.map FieldVal.members
  | VField.registration_completed => v.registration_completed.map FieldVal.flag
  | VField.employee_selection_mode => v.employee_selection_mode.map FieldVal.flag
  | VField.employee_matches => v.employee_matches.map FieldVal.matches

/-! ## Helper lemmas -/

/-- Spread commutes with mapping an injection over both operands. -/
theorem map_spread {α β : Type} (g : α → β) (a b : Option α) :
    (spreadField a b).map g = spreadField (a.map g) (b.map g) := by
  cases b <;> rfl

/-- Field access on the merge is the spread of the two field accesses. -/
theorem mergeFields_get (v r : VisitorInfo) (f : VField) :
    (mergeFields v r).get f = spreadField (v.get f) (r.get f) := by
  cases f <;> simp [VisitorInfo.get, mergeFields, map_spread]

/-- A non-terminal send reduces to the optimistic phase followed by the
matching resolution, and issues exactly one transport call built from the
pre-turn state. -/
theorem handleSend_nonterminal (s : ChatState) (m : String) (o : TurnOutcome)
    (t1 t2 : Nat) (h : ¬(s.currentStep = "complete" ∧ s.isLoading = false)) :
    handleSend s m o t1 t2 =
      ((match o with
        | TurnOutcome.success r => resolveSuccess (beginTurn s m t1) r t2
        | TurnOutcome.failure => resolveFailure (beginTurn s m t1) t2),
       [{ message := m, current_step := s.currentStep,
          visitor_info := s.visitorInfo }]) := by
  unfold handleSend sendSync
  rw [if_neg h]
  cases o <;> rfl

/-! ## Claim theorems -/

/-- C1 (code bug in the claimed behaviour): while a request is in flight the
input control as wired is not disabled. ChatContainer.tsx renders ChatInput
with an isLoading prop, but ChatInput declares only onSend and disabled, so
disabled keeps its default false even while isLoading is true; submitting a
nonblank buffer then invokes the orchestrator, which issues a second
transport call. -/
theorem second_send_during_loading_issues_call :
    chatContainerInputDisabled true = false ∧
    chatInputSubmit "hello" (chatContainerInputDisabled true) = some "hello" ∧
    (handleSend
        { messages := [], currentStep := "host",
          visitorInfo := emptyVisitorInfo, isLoading := true }
        "hello" TurnOutcome.failure 1 2).2 =
      [{ message := "hello", current_step := "host",
         visitor_info := emptyVisitorInfo }] :=
  ⟨rfl, by decide, by decide⟩

/-- C2: on a failed non-terminal turn the transcript gains exactly the
optimistically appended user message followed by one bot message with the
fixed apology text, the loading flag is cleared, and the step and visitor
info are unchanged from before the turn. -/
theorem failure_turn_absorbed (s : ChatState) (m : String) (t1 t2 : Nat)
    (h : ¬(s.currentStep = "complete" ∧ s.isLoading = false)) :
    (handleSend s m TurnOutcome.failure t1 t2).1.messages =
        s.messages ++
          [{ type := MsgType.user, content := m, timestamp := t1 },
           { type := MsgType.bot, content := apologyText, timestamp := t2 }] ∧
    (handleSend s m TurnOutcome.failure t1 t2).1.isLoading = false ∧
    (handleSend s m TurnOutcome.failure t1 t2).1.currentStep = s.currentStep ∧
    (handleSend s m TurnOutcome.failure t1 t2).1.visitorInfo = s.visitorInfo := by
  rw [handleSend_nonterminal s m TurnOutcome.failure t1 t2 h]
  simp [resolveFailure, beginTurn]

theorem failure_turn_absorbed_witness :
    (handleSend INITIAL_STATE "hi" TurnOutcome.failure 1 2).1.messages =
        INITIAL_STATE.messages ++
          [{ type := MsgType.user, content := "hi", timestamp := 1 },
           { type := MsgType.bot, content := apologyText, timestamp := 2 }] ∧
    (handleSend INITIAL_STATE "hi" TurnOutcome.failure 1 2).1.isLoading = false ∧
    (handleSend INITIAL_STATE "hi" TurnOutcome.failure 1 2).1.currentStep =
      INITIAL_STATE.currentStep ∧
    (handleSend INITIAL_STATE "hi" TurnOutcome.failure 1 2).1.visitorInfo =
      INITIAL_STATE.visitorInfo :=
  failure_turn_absorbed INITIAL_STATE "hi" 1 2 (by decide)

/-- C3: from the terminal step while not loading, a send with any payload
issues no transport call, discards the payload and replaces the whole state
with the initial state: one fixed welcome bot message, step visitor_type,
empty visitor info, not loading. -/
theorem terminal_reset (s : ChatState) (m : String) (o : TurnOutcome)
    (t1 t2 : Nat) (h1 : s.currentStep = "complete") (h2 : s.isLoading = false) :
    handleSend s m o t1 t2 = (INITIAL_STATE, []) ∧
    INITIAL_STATE.messages =
      [{ type := MsgType.bot, content := welcomeText, timestamp := 0 }] ∧
    INITIAL_STATE.currentStep = "visitor_type" ∧
    INITIAL_STATE.visitorInfo = emptyVisitorInfo ∧
    INITIAL_STATE.isLoading = false := by
  refine ⟨?_, rfl, rfl, rfl, rfl⟩
  unfold handleSend sendSync
  rw [if_pos ⟨h1, h2⟩]

theorem terminal_reset_witness :
    handleSend
        { messages := [], currentStep := "complete",
          visitorInfo := emptyVisitorInfo, isLoading := false }
        "" TurnOutcome.failure 1 2 = (INITIAL_STATE, []) :=
  (terminal_reset _ "" TurnOutcome.failure 1 2 rfl rfl).1

/-- C4: a successful turn whose response carries visitor_info with
registration_completed true appends exactly two bot messages after the user
message, first the response text and then the fixed restart prompt, sets the
step to complete whatever next-step token was returned, and clears the
loading flag. -/
theorem terminal_two_message_turn (s : ChatState) (m : String)
    (r : ProcessResult) (t1 t2 : Nat)
    (h : ¬(s.currentStep = "complete" ∧ s.isLoading = false))
    (hc : respCompleted r.visitorInfo = true) :
    (handleSend s m (TurnOutcome.success r) t1 t2).1.messages =
        s.messages ++
          [{ type := MsgType.user, content := m, timestamp := t1 }] ++
          [{ type := MsgType.bot, content := r.response, timestamp := t2 },
           { type := MsgType.bot, content := restartText, timestamp := t2 }] ∧
    (handleSend s m (TurnOutcome.success r) t1 t2).1.currentStep = "complete" ∧
    (handleSend s m (TurnOutcome.success r) t1 t2).1.isLoading = false := by
  rw [handleSend_nonterminal s m (TurnOutcome.success r) t1 t2 h]
  simp [resolveSuccess, beginTurn, hc]

theorem terminal_two_message_turn_witness :
    (handleSend INITIAL_STATE "yes"
        (TurnOutcome.success
          { response := "Done.", nextStep := some "somewhere",
            visitorInfo :=
              some { emptyVisitorInfo with
                       registration_completed := some true } }) 1 2).1.currentStep =
      "complete" :=
  (terminal_two_message_turn INITIAL_STATE "yes"
    { response := "Done.", nextStep := some "somewhere",
      visitorInfo :=
        some { emptyVisitorInfo with registration_completed := some true } }
    1 2 (by decide) rfl).2.1

/-- C5: the merge written in App.tsx is the shallow merge of the response
fields over the accumulated fields: a field present in the response
overwrites, a field absent from the response keeps the accumulated value,
and no field present on either side is deleted. -/
theorem shallow_merge_fieldwise (v r : VisitorInfo) (f : VField) :
    (∀ x, r.get f = some x → (mergeFields v r).get f = some x) ∧
    (r.get f = none → (mergeFields v r).get f = v.get f) ∧
    ((mergeFields v r).get f = none → v.get f = none ∧ r.get f = none) := by
  rw [mergeFields_get]
  refine ⟨fun x hx => ?_, fun hb => ?_, fun hn => ?_⟩
  · rw [hx]; rfl
  · rw [hb]; rfl
  · cases hb : r.get f with
    | some x => rw [hb] at hn; simp [spreadField] at hn
    | none =>
        rw [hb] at hn
        simp only [spreadField] at hn
        exact ⟨hn, rfl⟩

theorem shallow_merge_fieldwise_witness :
    (mergeFields { emptyVisitorInfo with full_name := some "A" }
        { emptyVisitorInfo with phone := some "123" }).get VField.phone =
      some (FieldVal.str "123") ∧
    (mergeFields { emptyVisitorInfo with full_name := some "A" }
        { emptyVisitorInfo with phone := some "123" }).get VField.full_name =
      VisitorInfo.get { emptyVisitorInfo with full_name := some "A" }
        VField.full_name :=
  ⟨(shallow_merge_fieldwise _ _ VField.phone).1 (FieldVal.str "123") rfl,
   (shallow_merge_fieldwise _ _ VField.full_name).2.1 rfl⟩

/-- C6: on a non-terminal send the synchronous phase, which is the same step
that issues the transport call, appends a user message holding the trimmed
payload (every payload reaching the orchestrator is already trimmed, so the
appended content is the trimmed payload) and raises the loading flag. -/
theorem optimistic_append (s : ChatState) (m : String) (t : Nat)
    (h : ¬(s.currentStep = "complete" ∧ s.isLoading = false))
    (hm : jsTrim m = m) :
    (sendSync s m t).1.messages =
        s.messages ++
          [{ type := MsgType.user, content := jsTrim m, timestamp := t }] ∧
    (sendSync s m t).1.isLoading = true ∧
    (sendSync s m t).2 =
      some { message := m, current_step := s.currentStep,
             visitor_info := s.visitorInfo } := by
  unfold sendSync
  rw [if_neg h]
  simp [beginTurn, hm]

theorem optimistic_append_witness :
    (sendSync INITIAL_STATE "hello" 1).1.messages =
        INITIAL_STATE.messages ++
          [{ type := MsgType.user, content := jsTrim "hello", timestamp := 1 }] ∧
    (sendSync INITIAL_STATE "hello" 1).1.isLoading = true ∧
    (sendSync INITIAL_STATE "hello" 1).2 =
      some { message := "hello", current_step := INITIAL_STATE.currentStep,
             visitor_info := INITIAL_STATE.visitorInfo } :=
  optimistic_append INITIAL_STATE "hello" 1 (by decide) (by decide)

/-- C7 counterexample: a next-step token that is present but equal to the
empty string is not adopted; the JS or in App.tsx treats the empty string as
falsy and keeps the previous step, so the step does not become the returned
token. -/
theorem empty_next_step_token_not_adopted :
    (handleSend
        { messages := [], currentStep := "cnic",
          visitorInfo := emptyVisitorInfo, isLoading := false }
        "x" (TurnOutcome.success
          { response := "ok", nextStep := some "",
            visitorInfo := none }) 1 2).1.currentStep = "cnic" ∧
    ¬((handleSend
        { messages := [], currentStep := "cnic",
          visitorInfo := emptyVisitorInfo, isLoading := false }
        "x" (TurnOutcome.success
          { response := "ok", nextStep := some "",
            visitorInfo := none }) 1 2).1.currentStep = "") := by
  decide

/-- C7 amended: on a successful non-terminal turn exactly one bot message
with the response text is appended and the loading flag is cleared; the step
becomes the returned next-step token when it is present and nonempty, and is
left unchanged when the token is omitted or is the empty string. -/
theorem ordinary_success_turn (s : ChatState) (m : String) (r : ProcessResult)
    (t1 t2 : Nat)
    (h : ¬(s.currentStep = "complete" ∧ s.isLoading = false))
    (hc : respCompleted r.visitorInfo = false) :
    (handleSend s m (TurnOutcome.success r) t1 t2).1.messages =
        s.messages ++
          [{ type := MsgType.user, content := m, timestamp := t1 },
           { type := MsgType.bot, content := r.response, timestamp := t2 }] ∧
    (handleSend s m (TurnOutcome.success r) t1 t2).1.isLoading = false ∧
    (∀ tok, r.nextStep = some tok → tok ≠ "" →
      (handleSend s m (TurnOutcome.success r) t1 t2).1.currentStep = tok) ∧
    ((r.nextStep = none ∨ r.nextStep = some "") →
      (handleSend s m (TurnOutcome.success r) t1 t2).1.currentStep =
        s.currentStep) := by
  rw [handleSend_nonterminal s m (TurnOutcome.success r) t1 t2 h]
  refine ⟨?_, ?_, ?_, ?_⟩
  · simp [resolveSuccess, beginTurn, hc]
  · simp [resolveSuccess, beginTurn, hc]
  · intro tok htok hne
    simp [resolveSuccess, beginTurn, hc, htok, jsOrStep, hne]
  · intro hcase
    rcases hcase with hcase | hcase <;>
      simp [resolveSuccess, beginTurn, hc, hcase, jsOrStep]

theorem ordinary_success_turn_witness :
    (handleSend INITIAL_STATE "hello"
        (TurnOutcome.success { response := "ok", nextStep := some "phone",
                               visitorInfo := none }) 1 2).1.currentStep =
      "phone" :=
  (ordinary_success_turn INITIAL_STATE "hello"
    { response := "ok", nextStep := some "phone", visitorInfo := none }
    1 2 (by decide) rfl).2.2.1 "phone" rfl (by decide)

/-- C8: every non-reset transition is append-only on the transcript: the
pre-turn message list is a prefix of the list after the optimistic phase,
which in turn is a prefix of the list after any resolution, success with or
without the terminal flag, or failure. -/
theorem transcript_append_only (s : ChatState) (m : String) (o : TurnOutcome)
    (t1 t2 : Nat) (h : ¬(s.currentStep = "complete" ∧ s.isLoading = false)) :
    s.messages <+: (sendSync s m t1).1.messages ∧
    (sendSync s m t1).1.messages <+: (handleSend s m o t1 t2).1.messages := by
  have hsync : (sendSync s m t1).1 = beginTurn s m t1 := by
    unfold sendSync; rw [if_neg h]
  constructor
  · rw [hsync]
    exact ⟨_, rfl⟩
  · rw [hsync, handleSend_nonterminal s m o t1 t2 h]
    cases o with
    | success r =>
        show (beginTurn s m t1).messages <+:
          (resolveSuccess (beginTurn s m t1) r t2).messages
        unfold resolveSuccess
        split <;> exact ⟨_, rfl⟩
    | failure =>
        exact ⟨_, rfl⟩

theorem transcript_append_only_witness :
    INITIAL_STATE.messages <+: (sendSync INITIAL_STATE "hi" 1).1.messages ∧
    (sendSync INITIAL_STATE "hi" 1).1.messages <+:
      (handleSend INITIAL_STATE "hi" TurnOutcome.failure 1 2).1.messages :=
  transcript_append_only INITIAL_STATE "hi" TurnOutcome.failure 1 2 (by decide)

/-- C9: the input control submits nothing when the trimmed buffer is empty,
submits the trimmed buffer exactly once otherwise (the control is never
disabled under the wiring in ChatContainer.tsx, whatever the loading flag),
and the buffer held by the input element never exceeds 300 characters. -/
theorem input_control_gating (b raw : String) (l : Bool) :
    (jsTrim b = "" → chatInputSubmit b (chatContainerInputDisabled l) = none) ∧
    (jsTrim b ≠ "" →
      chatInputSubmit b (chatContainerInputDisabled l) = some (jsTrim b)) ∧
    (updateBuffer raw).length ≤ 300 := by
  refine ⟨fun hb => ?_, fun hb => ?_, ?_⟩
  · simp [chatInputSubmit, chatContainerInputDisabled, hb]
  · simp [chatInputSubmit, chatContainerInputDisabled, hb]
  · have hlen : (updateBuffer raw).length = (raw.data.take 300).length := rfl
    rw [hlen, List.length_take]
    exact Nat.min_le_left _ _

theorem input_control_gating_witness :
    chatInputSubmit "   " (chatContainerInputDisabled true) = none ∧
    chatInputSubmit " hi " (chatContainerInputDisabled true) =
      some (jsTrim " hi ") ∧
    (updateBuffer "abc").length ≤ 300 :=
  ⟨(input_control_gating "   " "abc" true).1 (by decide),
   (input_control_gating " hi " "abc" true).2.1 (by decide),
   (input_control_gating " hi " "abc" true).2.2⟩

/-- C10: a successful turn whose response omits the visitor_info field
leaves the accumulated visitor info exactly as it was: spreading an absent
object is the identity. -/
theorem absent_visitor_info_is_identity (s : ChatState) (m : String)
    (r : ProcessResult) (t1 t2 : Nat)
    (h : ¬(s.currentStep = "complete" ∧ s.isLoading = false))
    (hr : r.visitorInfo = none) :
    (handleSend s m (TurnOutcome.success r) t1 t2).1.visitorInfo =
      s.visitorInfo := by
  rw [handleSend_nonterminal s m (TurnOutcome.success r) t1 t2 h]
  simp [resolveSuccess, beginTurn, respCompleted, hr, mergeVisitorInfo]

theorem absent_visitor_info_is_identity_witness :
    (handleSend INITIAL_STATE "hello"
        (TurnOutcome.success { response := "ok", nextStep := none,
                               visitorInfo := none }) 1 2).1.visitorInfo =
      INITIAL_STATE.visitorInfo :=
  absent_visitor_info_is_identity INITIAL_STATE "hello" _ 1 2 (by decide) rfl

end DPLChat
